import Mathlib

/-!
Verification development for the Core-Craft backend repository.

The repository is a FastAPI + MongoDB user/subscription service.  This file
gives a shallow embedding of the parts of the code that the verified claims
talk about:

* `src/app/db/base.py` — the `DataBase` class (validate / upload / query /
  update / delete), modelled over an explicit in-memory document store.
* `src/app/models/user.py` and `src/app/models/base.py` — the `User` and
  `Base` repository classes (thin keyword-argument wrappers over `DataBase`).
* `src/app/api/V1/endpoints/user.py` and `subscription.py` — the endpoint
  handlers `get_user`, `register_user`, `create_user_subscriptions`,
  `update_user_subscriptions`.
* `src/app/api/V1/endpoints/utils.py` — `hash_password`, `verify_password`,
  `create_access_token`, `create_refresh_token`, `get_current_user`.
* `src/app/schemas/*.py` — the pydantic schema shapes that the handlers
  receive, and the import-time evaluation of their field defaults.

Python values appearing in documents are embedded as `PyVal`; Python
exceptions as `PyError`; MongoDB as a list of collections of documents,
together with a log of the driver calls that each operation issues.
External libraries (pymongo, python-jose, passlib/bcrypt, secrets) are not
part of the repository; the few of their behaviours the code depends on are
modelled from their documented semantics and are flagged in the doc comment
of the corresponding definition.
-/

/-- A Python value as it appears in request payloads and stored documents:
`int`, `str`, `bool`, `None`, `list`, or `dict` (a `dict` is a finite list
of string-keyed fields, in insertion order). -/
inductive PyVal where
  | int (n : Int)
  | str (s : String)
  | bool (b : Bool)
  | none
  | list (xs : List PyVal)
  | dict (kvs : List (String × PyVal))
  deriving Repr, Inhabited

/-- Structural equality of Python values (Python `==` on the embedded
fragment; also MongoDB equality on the same fragment). -/
def PyVal.beq : PyVal → PyVal → Bool
  | .int a, .int b => a == b
  | .str a, .str b => a == b
  | .bool a, .bool b => a == b
  | .none, .none => true
  | .list a, .list b => go a b
  | .dict a, .dict b => goKV a b
  | _, _ => false
where
  go : List PyVal → List PyVal → Bool
    | [], [] => true
    | a :: as, b :: bs => PyVal.beq a b && go as bs
    | _, _ => false
  goKV : List (String × PyVal) → List (String × PyVal) → Bool
    | [], [] => true
    | (k, v) :: as, (l, w) :: bs => k == l && PyVal.beq v w && goKV as bs
    | _, _ => false

instance : BEq PyVal := ⟨PyVal.beq⟩

/-- Python truthiness of a value: `0`, `""`, `False`, `None`, `[]` and `{}`
are falsy, everything else is truthy. -/
def PyVal.truthy : PyVal → Bool
  | .int n => n != 0
  | .str s => !s.isEmpty
  | .bool b => b
  | .none => false
  | .list xs => !xs.isEmpty
  | .dict kvs => !kvs.isEmpty

/-- Does the value have Python type `str`? (`isinstance(v, str)`). -/
def PyVal.isStr : PyVal → Bool
  | .str _ => true
  | _ => false

/-- Does the value have Python type `dict`? (`isinstance(v, dict)`). -/
def PyVal.isDict : PyVal → Bool
  | .dict _ => true
  | _ => false

/-- Does the value have Python type `list`? (`isinstance(v, list)`). -/
def PyVal.isList : PyVal → Bool
  | .list _ => true
  | _ => false

/-- Python `type(v).__name__`, used in the error messages of
`DataBase.validate`. -/
def PyVal.typeName : PyVal → String
  | .int _ => "int"
  | .str _ => "str"
  | .bool _ => "bool"
  | .none => "NoneType"
  | .list _ => "list"
  | .dict _ => "dict"

/-- The string payload of a value known to be a `str` (callers only apply
this after an `isinstance(v, str)` check has succeeded). -/
def PyVal.asStr : PyVal → String
  | .str s => s
  | _ => ""

/-- A stored MongoDB document / a Python dict used as a record: fields in
insertion order. -/
abbrev Doc := List (String × PyVal)

/-- Python `d[k]` read on a dict: the value at the first occurrence of the
key, if any. -/
def lookupDoc (k : String) : Doc → Option PyVal
  | [] => Option.none
  | (k', v) :: rest => if k' == k then some v else lookupDoc k rest

/-- Python `d[k] = v` on a dict: overwrite the first occurrence of the key
in place, or append the new field at the end. -/
def setDoc (k : String) (v : PyVal) : Doc → Doc
  | [] => [(k, v)]
  | (k', v') :: rest =>
      if k' == k then (k, v) :: rest else (k', v') :: setDoc k v rest

/-- The keys of a dict, in order. -/
def docKeys (d : Doc) : List String := d.map (·.1)

/-- A Python exception, as raised by the code under verification.
`missingAttribute` is the repository's own
`MissingAttributeError` (src/app/exceptions/custom_exceptions.py); the
rest are builtin exception classes. -/
inductive PyError where
  | missingAttribute (msg : String)
  | typeError (msg : String)
  | keyError (key : String)
  | indexError (msg : String)
  | attributeError (msg : String)
  | valueError (msg : String)
  | duplicateKey (msg : String)
  deriving Repr, DecidableEq

/-- Python `str(e)` for an exception, as interpolated into the endpoints'
`f"...: {e}"` 500 details.  `str` of a `KeyError` puts the key in quotes. -/
def PyError.toMessage : PyError → String
  | .missingAttribute m => m
  | .typeError m => m
  | .keyError k => "'" ++ k ++ "'"
  | .indexError m => m
  | .attributeError m => m
  | .valueError m => m
  | .duplicateKey m => m

/-- A write acknowledgement from the driver (`response.acknowledged`). -/
structure WriteAck where
  acknowledged : Bool
  deriving Repr, DecidableEq

/-- One call issued to the MongoDB driver.  Operations return the list of
driver calls they issued, so that "fails before any database call" is a
statement about the log being empty. -/
inductive DbCall where
  | findSortLimit (db tbl : String)
  | insertOne (db tbl : String) (d : Doc)
  | insertMany (db tbl : String)
  | findOne (db tbl : String) (flt : Option Doc)
  | find (db tbl : String) (flt : Option Doc)
  | updateOne (db tbl : String) (flt : Doc) (set : Doc)
  | updateMany (db tbl : String) (flt : Doc) (set : Doc)
  | deleteOne (db tbl : String) (flt : Doc)
  deriving Repr

/-- The state of the MongoDB instance behind `pymongo.MongoClient`:
collections addressed by (database name, collection name), plus a counter
supplying fresh ObjectIds for the `_id` field pymongo adds on insert.
Accessing a non-existent collection yields an empty one. -/
structure MongoState where
  colls : List ((String × String) × List Doc)
  nextId : Nat
  deriving Repr

/-- The documents of collection `tbl` of database `db` (empty if absent). -/
def MongoState.getColl (st : MongoState) (db tbl : String) : List Doc :=
  ((st.colls.find? (fun c => c.1 == (db, tbl))).map (·.2)).getD []

/-- Replace the contents of collection `tbl` of database `db`. -/
def MongoState.setColl (st : MongoState) (db tbl : String) (docs : List Doc) :
    MongoState :=
  if st.colls.any (fun c => c.1 == (db, tbl)) then
    { st with colls := (st.colls.map
        (fun c => if c.1 == (db, tbl) then (c.1, docs) else c)) }
  else
    { st with colls := st.colls ++ [((db, tbl), docs)] }

/-- MongoDB matching of one stored field value against a filter value:
equality, or (for an array field) membership of the filter value in the
array. -/
def mongoValMatch (stored target : PyVal) : Bool :=
  PyVal.beq stored target ||
    (match stored with
     | .list xs => xs.any (fun x => PyVal.beq x target)
     | _ => false)

/-- MongoDB equality-filter matching: every field of the filter must match
the document; a filter field with value `null` also matches a document
missing that field. -/
def docMatches (flt : Doc) (d : Doc) : Bool :=
  flt.all fun kv =>
    match lookupDoc kv.1 d with
    | some v => mongoValMatch v kv.2
    | Option.none => kv.2 == PyVal.none

/-- Modelled from pymongo's documented behaviour: `insert_one(data)` adds a
fresh `_id` to the (mutable) dict if it has none, then inserts; inserting a
document whose `_id` already occurs in the collection raises
`DuplicateKeyError`.  Returns the (possibly `_id`-extended) dict together
with the acknowledgement. -/
def mongoInsertOne (st : MongoState) (db tbl : String) (data : Doc) :
    Except PyError (Doc × WriteAck) × MongoState :=
  let data' := if (lookupDoc "_id" data).isSome then data
               else data ++ [("_id", .int st.nextId)]
  let docs := st.getColl db tbl
  if docs.any (fun d => lookupDoc "_id" d == lookupDoc "_id" data') then
    (.error (.duplicateKey "E11000 duplicate key error"), st)
  else
    (.ok (data', ⟨true⟩),
     { (st.setColl db tbl (docs ++ [data'])) with nextId := st.nextId + 1 })

/-- The document maximising the integer `user_uuid` field (first one on
ties), i.e. the document returned by
`find().sort("user_uuid", DESCENDING).limit(1)[0]`.  Documents whose
`user_uuid` is missing or non-integer sort below every integer, matching
BSON order for the integer-valued identifiers this application stores. -/
def maxUserUuidDoc (docs : List Doc) : Option Doc :=
  let key : Doc → Option Int := fun d =>
    match lookupDoc "user_uuid" d with
    | some (.int n) => some n
    | _ => Option.none
  docs.foldl
    (fun best d =>
      match best with
      | Option.none => some d
      | some b =>
          match key d, key b with
          | some n, some m => if n > m then some d else some b
          | some _, Option.none => some d
          | _, _ => some b)
    Option.none

/-- Apply a MongoDB `$set` update document to a stored document: each listed
field is overwritten (or added), all other fields are untouched. -/
def applySet (s : Doc) (d : Doc) : Doc :=
  s.foldl (fun acc kv => setDoc kv.1 kv.2 acc) d

/-- Transform the first document satisfying the predicate (the semantics of
`update_one`), leaving every other document unchanged. -/
def updateFirst (p : Doc → Bool) (f : Doc → Doc) : List Doc → List Doc
  | [] => []
  | d :: rest => if p d then f d :: rest else d :: updateFirst p f rest

/-- Remove the first document satisfying the predicate (the semantics of
`delete_one`). -/
def deleteFirst (p : Doc → Bool) : List Doc → List Doc
  | [] => []
  | d :: rest => if p d then rest else d :: deleteFirst p rest

/-- The result of `DataBase.query`: a cursor over many documents
(`find`) or a single optional document (`find_one`). -/
inductive QueryResult where
  | cursor (docs : List Doc)
  | single (doc : Option Doc)
  deriving Repr

/-- `DataBase.validate` (src/app/db/base.py, lines 62-122): the
argument-presence/type middleware.  An argument is rejected as missing
whenever it is falsy (`if not db_name: ...`), and rejected as mistyped when
it is truthy but of the wrong Python type.  `data` is only checked when
`data_opt` is set, `filter` only when `filter_opt` is set; `bulk` is
type-checked only when truthy. -/
def DataBase.validate (db_name table_name : PyVal) (data_opt : Bool)
    (data : PyVal) (filter_opt : Bool) (filter : PyVal) (bulk : PyVal) :
    Except PyError Unit :=
  if !db_name.truthy then
    .error (.missingAttribute "db_name is required")
  else if !db_name.isStr then
    .error (.typeError ("Expected a str for 'db_name' but received a " ++
      db_name.typeName ++ "."))
  else if !table_name.truthy then
    .error (.missingAttribute "table_name is required")
  else if !table_name.isStr then
    .error (.typeError ("Expected a str for 'table_name' but received a " ++
      table_name.typeName ++ "."))
  else if data_opt && !data.truthy then
    .error (.missingAttribute "data is required")
  else if data_opt && !(data.isDict || data.isList) then
    .error (.typeError ("Expected a dict/list for 'data' but received a " ++
      data.typeName ++ "."))
  else if filter_opt && !filter.truthy then
    .error (.missingAttribute "filter is required")
  else if filter_opt && !filter.isDict then
    .error (.typeError ("Expected a dict for 'filter' but received a " ++
      filter.typeName ++ "."))
  else if bulk.truthy && !(match bulk with | .bool _ => true | _ => false) then
    .error (.typeError ("Expected a bool for 'bulk' but received a " ++
      bulk.typeName ++ "."))
  else
    .ok ()

/-- `DataBase.upload` (src/app/db/base.py, lines 124-156).  After
validation: reads `data["user_uuid"]` (a `KeyError` when the key is absent,
a `TypeError` when `data` is a list); when the value is `None`, computes the
current maximum `user_uuid` via a sorted cursor (an `IndexError` on an empty
collection), sets `user_uuid` to maximum plus one and inserts — and then,
because control falls through to the unconditional `isinstance(data, dict)`
branch, calls `insert_one` a second time on the same dict (which by then
carries the `_id` of the first insert, so the second insert raises
`DuplicateKeyError`).  Because pymongo mutates the caller's dict (adding
`_id`, and here also `user_uuid`), the successful result carries the
mutated dict back to the caller alongside the acknowledgement. -/
def DataBase.upload (st : MongoState) (db_name table_name data : PyVal) :
    Except PyError (Doc × WriteAck) × MongoState × List DbCall :=
  match DataBase.validate db_name table_name true data false PyVal.none
      (.bool false) with
  | .error e => (.error e, st, [])
  | .ok _ =>
    let db := db_name.asStr
    let tbl := table_name.asStr
    match data with
    | .dict fields =>
        match lookupDoc "user_uuid" fields with
        | Option.none => (.error (.keyError "user_uuid"), st, [])
        | some v =>
          if v == PyVal.none then
            let log0 := [DbCall.findSortLimit db tbl]
            match maxUserUuidDoc (st.getColl db tbl) with
            | Option.none =>
                (.error (.indexError "no such item for Cursor instance"), st,
                 log0)
            | some top =>
              match lookupDoc "user_uuid" top with
              | Option.none => (.error (.keyError "user_uuid"), st, log0)
              | some (PyVal.int m) =>
                  let fields1 := setDoc "user_uuid" (.int (m + 1)) fields
                  match mongoInsertOne st db tbl fields1 with
                  | (.error e, st1) =>
                      (.error e, st1, log0 ++ [.insertOne db tbl fields1])
                  | (.ok (fields2, _ack1), st1) =>
                      match mongoInsertOne st1 db tbl fields2 with
                      | (.error e, st2) =>
                          (.error e, st2, log0 ++
                           [.insertOne db tbl fields1,
                            .insertOne db tbl fields2])
                      | (.ok (fields3, ack2), st2) =>
                          (.ok (fields3, ack2), st2, log0 ++
                           [.insertOne db tbl fields1,
                            .insertOne db tbl fields2])
              | some _ =>
                  (.error (.typeError
                    "unsupported operand type(s) for +: non-integer user_uuid"),
                   st, log0)
          else
            match mongoInsertOne st db tbl fields with
            | (.error e, st1) => (.error e, st1, [.insertOne db tbl fields])
            | (.ok (fields', ack), st1) =>
                (.ok (fields', ack), st1, [.insertOne db tbl fields])
    | .list _ =>
        (.error (.typeError "list indices must be integers or slices, not str"),
         st, [])
    | _ =>
        (.error (.typeError "unreachable: validate admits only dict or list"),
         st, [])

/-- `DataBase.query` (src/app/db/base.py, lines 158-191): `filter_opt` is
passed as `True if filter else False`, so a falsy filter is simply not
validated and the unfiltered `find_one()` / `find()` is used.  `find_one`
returns the first matching document or `None`; `find` returns a cursor over
all matches (natural order = insertion order in this model). -/
def DataBase.query (st : MongoState) (db_name table_name filter bulk : PyVal) :
    Except PyError QueryResult × MongoState × List DbCall :=
  match DataBase.validate db_name table_name false PyVal.none filter.truthy
      filter bulk with
  | .error e => (.error e, st, [])
  | .ok _ =>
    let db := db_name.asStr
    let tbl := table_name.asStr
    let docs := st.getColl db tbl
    if bulk.truthy then
      match filter with
      | .dict flt =>
          (.ok (.cursor (docs.filter (docMatches flt))), st,
           [.find db tbl (some flt)])
      | _ => (.ok (.cursor docs), st, [.find db tbl Option.none])
    else
      match filter with
      | .dict flt =>
          (.ok (.single (docs.find? (docMatches flt))), st,
           [.findOne db tbl (some flt)])
      | _ => (.ok (.single docs.head?), st, [.findOne db tbl Option.none])

/-- `DataBase.update` (src/app/db/base.py, lines 193-220).  After
validation: stamps `updated_at` into `data["user_data"]` (a `TypeError` when
`data` has no `"user_data"` dict, an `AttributeError` when `data` is a
list), then applies `{"$set": data["user_data"]}` to the record(s) matching
`{"user_uuid": data["user_uuid"]}` (a `KeyError` when that key is absent) —
one record for `update_one`, all matching records when `bulk` is truthy.
The timestamp string is supplied as the `now` parameter. -/
def DataBase.update (st : MongoState) (db_name table_name data bulk : PyVal)
    (now : String) : Except PyError WriteAck × MongoState × List DbCall :=
  match DataBase.validate db_name table_name true data false PyVal.none
      bulk with
  | .error e => (.error e, st, [])
  | .ok _ =>
    match data with
    | .dict fields =>
      match lookupDoc "user_data" fields with
      | Option.none =>
          (.error (.typeError
            "'NoneType' object does not support item assignment"), st, [])
      | some (PyVal.dict ud) =>
          let stamped := setDoc "updated_at" (.str now) ud
          match lookupDoc "user_uuid" fields with
          | Option.none => (.error (.keyError "user_uuid"), st, [])
          | some uv =>
            let db := db_name.asStr
            let tbl := table_name.asStr
            let docs := st.getColl db tbl
            let flt : Doc := [("user_uuid", uv)]
            if bulk.truthy then
              (.ok ⟨true⟩,
               st.setColl db tbl (docs.map
                 (fun d => if docMatches flt d then applySet stamped d else d)),
               [.updateMany db tbl flt stamped])
            else
              (.ok ⟨true⟩,
               st.setColl db tbl
                 (updateFirst (docMatches flt) (applySet stamped) docs),
               [.updateOne db tbl flt stamped])
      | some _ =>
          (.error (.typeError "object does not support item assignment"),
           st, [])
    | .list _ =>
        (.error (.attributeError "'list' object has no attribute 'get'"),
         st, [])
    | _ =>
        (.error (.typeError "unreachable: validate admits only dict or list"),
         st, [])

/-- `DataBase.delete` (src/app/db/base.py, lines 222-243): after validation
(with `filter_opt=True`), removes exactly the first record matching the
filter (`delete_one`). -/
def DataBase.delete (st : MongoState) (db_name table_name filter : PyVal) :
    Except PyError WriteAck × MongoState × List DbCall :=
  match DataBase.validate db_name table_name false PyVal.none true filter
      (.bool false) with
  | .error e => (.error e, st, [])
  | .ok _ =>
    match filter with
    | .dict flt =>
        let db := db_name.asStr
        let tbl := table_name.asStr
        (.ok ⟨true⟩,
         st.setColl db tbl (deleteFirst (docMatches flt) (st.getColl db tbl)),
         [.deleteOne db tbl flt])
    | _ =>
        (.error (.typeError "unreachable: validate admits only dict filters"),
         st, [])

/-- The process environment / dotenv configuration read at startup
(`DB_URL`, `DB_NAME`, `USER_TABLE_NAME`, `SUBSCRIPTION_TABLE_NAME`,
`JWT_SECRET_KEY`, `JWT_REFRESH_SECRET_KEY`).  A variable that is unset in
the environment is modelled as the empty string, which is exactly as falsy
as Python's `None` for every check the code performs on it. -/
structure Env where
  dbUrl : String
  dbName : String
  userTable : String
  subTable : String
  jwtSecretKey : String
  jwtRefreshSecretKey : String
  deriving Repr

/-- Construction of a repository object (`User()` or `Base(...)`), whose
`DataBase.__init__` (src/app/db/base.py, lines 35-52) raises
`MissingAttributeError` when the configured `db_url` is falsy.  (`db_url`
comes from `os.environ.get`, so it is either a string or absent; the
`TypeError` branch of `__init__` is unreachable for it.) -/
def mkRepository (env : Env) : Except PyError Unit :=
  if env.dbUrl.isEmpty then .error (.missingAttribute "db_url is required")
  else .ok ()

/-- Python keyword-argument binding for the single-parameter repository
methods: calling `f(kw=v)` binds the parameter named `param` when the
names agree and otherwise raises
`TypeError: f() got an unexpected keyword argument 'kw'`.  The `param`
string at each use site is taken from the method's `def` in the source and
the `kw` string from the call site. -/
def bindKwarg (fname param kw : String) (v : PyVal) : Except PyError PyVal :=
  if kw == param then .ok v
  else .error (.typeError
    (fname ++ "() got an unexpected keyword argument '" ++ kw ++ "'"))

/-- `User.save` (src/app/models/user.py, lines 42-54): uploads into the
user collection. -/
def User.save (env : Env) (st : MongoState) (data : PyVal) :
    Except PyError (Doc × WriteAck) × MongoState × List DbCall :=
  DataBase.upload st (.str env.dbName) (.str env.userTable) data

/-- `User.get` (src/app/models/user.py, lines 56-70): `find_one` by
`{"user_uuid": user_uuid}`.  Its single parameter is named `user_uuid`. -/
def User.get (env : Env) (st : MongoState) (user_uuid : PyVal) :
    Except PyError QueryResult × MongoState × List DbCall :=
  DataBase.query st (.str env.dbName) (.str env.userTable)
    (.dict [("user_uuid", user_uuid)]) (.bool false)

/-- `User.filter` (src/app/models/user.py, lines 85-102):
`list(query(..., filter=filter, bulk=True))`.  With `bulk=True` the query
returns a cursor, which `list(...)` materialises. -/
def User.filter (env : Env) (st : MongoState) (filter : PyVal) :
    Except PyError (List Doc) × MongoState × List DbCall :=
  match DataBase.query st (.str env.dbName) (.str env.userTable) filter
      (.bool true) with
  | (.error e, st', log) => (.error e, st', log)
  | (.ok (.cursor docs), st', log) => (.ok docs, st', log)
  | (.ok (.single _), st', log) => (.ok [], st', log)

/-- `User.update` (src/app/models/user.py, lines 104-116). -/
def User.update (env : Env) (st : MongoState) (data : PyVal) (now : String) :
    Except PyError WriteAck × MongoState × List DbCall :=
  DataBase.update st (.str env.dbName) (.str env.userTable) data (.bool false)
    now

/-- `Base.get` (src/app/models/base.py, lines 62-76): like `User.get`, but
its single parameter is named `uuid`; the collection name is resolved from
the environment variable named at construction (for `Subscription`,
`SUBSCRIPTION_TABLE_NAME`). -/
def Base.get (tbl : String) (env : Env) (st : MongoState) (uuid : PyVal) :
    Except PyError QueryResult × MongoState × List DbCall :=
  DataBase.query st (.str env.dbName) (.str tbl)
    (.dict [("user_uuid", uuid)]) (.bool false)

/-- `Base.save` (src/app/models/base.py, lines 48-60). -/
def Base.save (tbl : String) (env : Env) (st : MongoState) (data : PyVal) :
    Except PyError (Doc × WriteAck) × MongoState × List DbCall :=
  DataBase.upload st (.str env.dbName) (.str tbl) data

/-- `Base.filter` (src/app/models/base.py, lines 91-108). -/
def Base.filter (tbl : String) (env : Env) (st : MongoState) (filter : PyVal) :
    Except PyError (List Doc) × MongoState × List DbCall :=
  match DataBase.query st (.str env.dbName) (.str tbl) filter (.bool true) with
  | (.error e, st', log) => (.error e, st', log)
  | (.ok (.cursor docs), st', log) => (.ok docs, st', log)
  | (.ok (.single _), st', log) => (.ok [], st', log)

/-- `Base.update` (src/app/models/base.py, lines 110-122). -/
def Base.update (tbl : String) (env : Env) (st : MongoState) (data : PyVal)
    (now : String) : Except PyError WriteAck × MongoState × List DbCall :=
  DataBase.update st (.str env.dbName) (.str tbl) data (.bool false) now

/-- UTF-8 encoding of one Unicode code point, as a list of byte values. -/
def utf8EncodeCharNat (n : Nat) : List Nat :=
  if n < 0x80 then [n]
  else if n < 0x800 then
    [0xC0 + n / 64, 0x80 + n % 64]
  else if n < 0x10000 then
    [0xE0 + n / 4096, 0x80 + (n / 64) % 64, 0x80 + n % 64]
  else
    [0xF0 + n / 262144, 0x80 + (n / 4096) % 64, 0x80 + (n / 64) % 64,
     0x80 + n % 64]

/-- The UTF-8 byte sequence of a string (Python `s.encode("utf-8")`). -/
def utf8Bytes (s : String) : List Nat :=
  s.data.foldr (fun c acc => utf8EncodeCharNat c.toNat ++ acc) []

/-- Modelled from the bcrypt algorithm used by
`CryptContext(schemes=["bcrypt"])`: bcrypt only consumes the first 72 bytes
of the password; passlib's bcrypt handler silently truncates longer
passwords (its `truncate_error` option defaults to off). -/
def bcryptTruncate (password : String) : List Nat :=
  (utf8Bytes password).take 72

/-- A bcrypt hash as stored: the cost factor, the salt, and the digest.
The digest of real bcrypt is a one-way function of (salt, truncated
password); it is idealised here as the pair itself, i.e. as a perfectly
collision-free digest of the truncated password. -/
structure BcryptHash where
  rounds : Nat
  salt : Nat
  digest : List Nat
  deriving Repr, DecidableEq

/-- `hash_password` (src/app/api/V1/endpoints/utils.py, lines 26-46):
`pwd_context.hash(password, rounds=12)` — a salted bcrypt hash with cost
factor 12.  The salt is drawn by the library; it is passed explicitly
here. -/
def hash_password (salt : Nat) (password : String) : BcryptHash :=
  { rounds := 12, salt := salt, digest := bcryptTruncate password }

/-- `verify_password` (src/app/api/V1/endpoints/utils.py, lines 49-67):
`pwd_context.verify(password, hashed_password)` — recompute the digest of
the candidate under the hash's salt and cost and compare. -/
def verify_password (password : String) (hashed_password : BcryptHash) :
    Bool :=
  bcryptTruncate password == hashed_password.digest

/-- Rendering of a bcrypt hash to its modular-crypt string form
(`$2b$12$...`), as stored in the user document's `password` field. -/
def BcryptHash.render (h : BcryptHash) : String :=
  "$2b$" ++ toString h.rounds ++ "$" ++ toString h.salt ++ "$" ++
    String.intercalate "," (h.digest.map toString)

/-- The state of the process's entropy source (`secrets`). -/
structure Rng where
  ctr : Nat
  deriving Repr

/-- Modelled from the `secrets` library: `token_urlsafe(nbytes)` returns a
fresh random text string on every call.  Idealised as an injective function
of the number of draws made so far; each call advances the state. -/
def secretsTokenUrlsafe (nbytes : Nat) (r : Rng) : String × Rng :=
  ("tok" ++ toString nbytes ++ "-" ++ toString r.ctr, { ctr := r.ctr + 1 })

/-- `generate_password` (src/app/schemas/utils.py, lines 31-41):
`secrets.token_urlsafe(12)`. -/
def generate_password (r : Rng) : String × Rng :=
  secretsTokenUrlsafe 12 r

/-- The class attributes of the schema classes, i.e. the values of the
field-default expressions that Python evaluates once, when the modules
`app/schemas/utils.py`, `app/schemas/user.py` and
`app/schemas/subscription.py` are imported: the `TimestampMixin` and
`BaseSubscription` timestamp defaults (a `datetime.now(...)` formatted at
module-import time) and the `UserIn.password` default (`generate_password()`,
called at import time). -/
structure SchemaDefaults where
  createdAtDefault : String
  updatedAtDefault : String
  startDateDefault : String
  endDateDefault : String
  passwordDefault : String
  deriving Repr

/-- Import-time evaluation of the schema modules: the timestamp defaults
capture the import-time clock reading `importTime`, and the `UserIn`
class body calls `generate_password()` exactly once, so the password
default is the single token drawn from the entropy source at import. -/
def importSchemaModules (r : Rng) (importTime : String) : SchemaDefaults × Rng :=
  let (pw, r') := generate_password r
  ({ createdAtDefault := importTime, updatedAtDefault := importTime,
     startDateDefault := importTime, endDateDefault := importTime,
     passwordDefault := pw }, r')

/-- A validated `UserIn` request body (src/app/schemas/user.py, lines
44-109): the `BaseUser` fields, the `TimestampMixin` timestamps, the
password and the four flags.  There is no `user_uuid` field: only
`UserOut` and `UserSearch` declare one. -/
structure UserIn where
  full_name : Option String
  email : Option String
  phone_no : Option String
  aadhar_no : Option Int
  user_role : Option Int
  created_at : String
  updated_at : String
  password : String
  is_active : Bool
  is_staff : Bool
  is_admin : Bool
  is_superuser : Bool
  deriving Repr

/-- Construction of a `UserIn` from a request body: a field the client did
not supply takes the class default (the import-time values recorded in
`SchemaDefaults`; `True`/`False` for the flags).  Pydantic's field
validation (email format, 50-character name cap, the 12-digit `aadhar_no`
validator) happens upstream of the handlers modelled here and is assumed
to have accepted the body. -/
def UserIn.make (cls : SchemaDefaults) (full_name email phone_no : Option String)
    (aadhar_no user_role : Option Int) (password : Option String)
    (is_active is_staff is_admin is_superuser : Option Bool) : UserIn :=
  { full_name := full_name, email := email, phone_no := phone_no,
    aadhar_no := aadhar_no, user_role := user_role,
    created_at := cls.createdAtDefault, updated_at := cls.updatedAtDefault,
    password := password.getD cls.passwordDefault,
    is_active := is_active.getD true, is_staff := is_staff.getD false,
    is_admin := is_admin.getD false,
    is_superuser := is_superuser.getD false }

/-- An optional string as the corresponding Python value. -/
def pyOptStr : Option String → PyVal
  | some s => .str s
  | Option.none => .none

/-- An optional integer as the corresponding Python value. -/
def pyOptInt : Option Int → PyVal
  | some n => .int n
  | Option.none => .none

/-- `user_data.model_dump(exclude_unset=False)` for a `UserIn`: a dict with
every declared field (the order of keys is not observable through any dict
operation the handlers perform).  Note the absence of `user_uuid`. -/
def UserIn.dump (u : UserIn) : Doc :=
  [("created_at", .str u.created_at),
   ("updated_at", .str u.updated_at),
   ("full_name", pyOptStr u.full_name),
   ("email", pyOptStr u.email),
   ("phone_no", pyOptStr u.phone_no),
   ("aadhar_no", pyOptInt u.aadhar_no),
   ("user_role", pyOptInt u.user_role),
   ("password", .str u.password),
   ("is_active", .bool u.is_active),
   ("is_staff", .bool u.is_staff),
   ("is_admin", .bool u.is_admin),
   ("is_superuser", .bool u.is_superuser)]

/-- A dumped `BaseSubscription` period (src/app/schemas/subscription.py,
lines 10-41): `start_date`, `end_date` (import-time defaults when unset)
and `amount`. -/
def mkPeriod (cls : SchemaDefaults) (start_date end_date : Option String)
    (amount : Option Int) : Doc :=
  [("start_date", .str (start_date.getD cls.startDateDefault)),
   ("end_date", .str (end_date.getD cls.endDateDefault)),
   ("amount", pyOptInt amount)]

/-- A validated `SubscriptionIn` request body (src/app/schemas/
subscription.py, lines 44-69): `user_uuid` and an ordered list of periods,
plus the `TimestampMixin` timestamps.  Each period is kept in dumped form
(the handler only ever uses the dict shape). -/
structure SubscriptionIn where
  created_at : String
  updated_at : String
  user_uuid : Int
  subscription : List Doc
  deriving Repr

/-- Construction of a `SubscriptionIn` with unset timestamps taking the
class defaults. -/
def SubscriptionIn.make (cls : SchemaDefaults) (user_uuid : Int)
    (subscription : List Doc) : SubscriptionIn :=
  { created_at := cls.createdAtDefault, updated_at := cls.updatedAtDefault,
    user_uuid := user_uuid, subscription := subscription }

/-- `subscription.model_dump(exclude_unset=False)` for a
`SubscriptionIn`. -/
def SubscriptionIn.dump (s : SubscriptionIn) : Doc :=
  [("created_at", .str s.created_at),
   ("updated_at", .str s.updated_at),
   ("user_uuid", .int s.user_uuid),
   ("subscription", .list (s.subscription.map PyVal.dict))]

/-- A validated `SubscriptionUpdate` request body (src/app/schemas/
subscription.py, lines 131-158): the target `user_uuid` and the new period.
`user_data` is kept in its `exclude_unset=True` dumped form: exactly the
period fields the client supplied. -/
structure SubscriptionUpdate where
  user_uuid : Int
  user_data : Doc
  deriving Repr

/-- `subscription.model_dump(exclude_unset=True)` for a
`SubscriptionUpdate`: both fields are required, so both always appear. -/
def SubscriptionUpdate.dump (s : SubscriptionUpdate) : Doc :=
  [("user_uuid", .int s.user_uuid), ("user_data", .dict s.user_data)]

/-- A JWT as handled by python-jose: either a well-formed token — carrying
the header's algorithm, the claims, and the key it was signed with (the
HMAC-SHA256 signature is idealised as unforgeable, so "knowing the signing
key" stands for "having a valid signature") — or a malformed string. -/
inductive Token where
  | signed (alg : String) (claims : Doc) (key : String)
  | malformed (raw : String)
  deriving Repr

/-- The python-jose exceptions relevant here.  `ExpiredSignatureError` is a
subclass of `JWTError`, so `except jwt.JWTError` catches both. -/
inductive JoseError where
  | jwtError
  | expiredSignature
  deriving Repr, DecidableEq

/-- Modelled from python-jose's documented behaviour:
`jwt.decode(token, key, algorithms=[...])` rejects malformed tokens, tokens
whose header algorithm is not allowed and tokens whose signature does not
verify under `key` with `JWTError`; with its default options it also
verifies the `exp` claim against the current time and raises
`ExpiredSignatureError` when `exp` has passed.  `now` is the clock reading
in epoch seconds. -/
def joseDecode (tok : Token) (key : String) (algorithms : List String)
    (now : Int) : Except JoseError Doc :=
  match tok with
  | .malformed _ => .error .jwtError
  | .signed alg claims k =>
    if !(algorithms.contains alg) then .error .jwtError
    else if k != key then .error .jwtError
    else
      match lookupDoc "exp" claims with
      | some (.int e) => if e < now then .error .expiredSignature else .ok claims
      | _ => .ok claims

/-- Python `str(subject)` for the subject values this application signs
(integers or strings). -/
def pyStr : PyVal → String
  | .int n => toString n
  | .str s => s
  | .bool b => if b then "True" else "False"
  | .none => "None"
  | .list _ => "<list>"
  | .dict _ => "<dict>"

/-- `create_access_token` (src/app/api/V1/endpoints/utils.py, lines 70-96):
embeds `{"exp": utcnow + 30 minutes, "sub": str(subject)}` and signs with
HS256 under `JWT_SECRET_KEY`.  When the optional `expires_delta` (annotated
`int`) is actually supplied, the code computes `datetime.utcnow() +
expires_delta`, which raises `TypeError` for an int; no caller in the
repository supplies it. -/
def create_access_token (env : Env) (now : Int) (subject : PyVal)
    (expires_delta : Option Int) : Except PyError Token :=
  match expires_delta with
  | some _ => .error (.typeError
      "unsupported operand type(s) for +: 'datetime.datetime' and 'int'")
  | Option.none => .ok (.signed "HS256"
      [("exp", .int (now + 30 * 60)), ("sub", .str (pyStr subject))]
      env.jwtSecretKey)

/-- `create_refresh_token` (src/app/api/V1/endpoints/utils.py, lines
99-125): embeds `{"exp": utcnow + 60*24*7 minutes, "sub": str(subject)}`
and signs with HS256 under `JWT_REFRESH_SECRET_KEY`. -/
def create_refresh_token (env : Env) (now : Int) (subject : PyVal)
    (expires_delta : Option Int) : Except PyError Token :=
  match expires_delta with
  | some _ => .error (.typeError
      "unsupported operand type(s) for +: 'datetime.datetime' and 'int'")
  | Option.none => .ok (.signed "HS256"
      [("exp", .int (now + 60 * 24 * 7 * 60)), ("sub", .str (pyStr subject))]
      env.jwtRefreshSecretKey)

/-- The `TokenPayload` schema (src/app/schemas/user.py, lines 229-245):
`exp : int`, `sub : str`. -/
structure TokenPayload where
  exp : Int
  sub : String
  deriving Repr

/-- Pydantic validation `TokenPayload(**payload)`: requires an integer
`exp` and a string `sub` (the shapes this application's tokens carry);
extra claims are ignored; anything else raises `ValidationError`. -/
def TokenPayload.parse (claims : Doc) : Except PyError TokenPayload :=
  match lookupDoc "exp" claims, lookupDoc "sub" claims with
  | some (.int e), some (.str s) => .ok { exp := e, sub := s }
  | _, _ => .error (.valueError "validation error for TokenPayload")

/-- Python `int(s)`: parse a (trimmed) decimal literal or raise
`ValueError`. -/
def pyIntOfString (s : String) : Except PyError Int :=
  match s.trim.toInt? with
  | some n => .ok n
  | Option.none => .error (.valueError
      ("invalid literal for int() with base 10: '" ++ s ++ "'"))

/-- The outcome of the `get_current_user` dependency: an authenticated
user document, or an HTTP failure with a status and detail. -/
inductive AuthOutcome where
  | user (d : Doc)
  | failure (status : Nat) (detail : String)
  deriving Repr

/-- `get_current_user` (src/app/api/V1/endpoints/utils.py, lines 128-185).
The first `try` decodes the token and re-checks expiry; its
`except (jwt.JWTError, ValidationError)` turns BOTH decode failures AND the
expiry failure raised inside `jwt.decode` into 403 "Could not validate
credentials", while the explicit 401 "Token expired" check only runs when
`jwt.decode` already succeeded.  The second `try` constructs the
repository and calls `user_instance.get(uuid=int(token_data.sub))`, whose
keyword `uuid` does not match `User.get`'s parameter `user_uuid`; any
exception there becomes a 500.  A missing user becomes a 404. -/
def get_current_user (env : Env) (st : MongoState) (tok : Token) (now : Int) :
    AuthOutcome :=
  match joseDecode tok env.jwtSecretKey ["HS256"] now with
  | .error _ => .failure 403 "Could not validate credentials"
  | .ok payload =>
    match TokenPayload.parse payload with
    | .error _ => .failure 403 "Could not validate credentials"
    | .ok token_data =>
      if token_data.exp < now then .failure 401 "Token expired"
      else
        match mkRepository env with
        | .error e => .failure 500
            ("Failed to retrieve user data: " ++ e.toMessage)
        | .ok _ =>
          match pyIntOfString token_data.sub with
          | .error e => .failure 500
              ("Failed to retrieve user data: " ++ e.toMessage)
          | .ok n =>
            match bindKwarg "User.get" "user_uuid" "uuid" (.int n) with
            | .error e => .failure 500
                ("Failed to retrieve user data: " ++ e.toMessage)
            | .ok v =>
              match User.get env st v with
              | (.error e, _, _) => .failure 500
                  ("Failed to retrieve user data: " ++ e.toMessage)
              | (.ok (.single Option.none), _, _) =>
                  .failure 404 "User not found"
              | (.ok (.single (some d)), _, _) => .user d
              | (.ok (.cursor _), _, _) => .user []

/-- An HTTP outcome of an endpoint handler: a JSON body, an
`HTTPException` the handler raised, or an exception that escaped the
handler uncaught (which the framework reports as a 500). -/
inductive HttpResponse where
  | ok (body : PyVal)
  | httpError (status : Nat) (detail : String)
  | uncaught (e : PyError)
  deriving Repr

/-- Python `str(e)` of a FastAPI `HTTPException`:
`"{status_code}: {detail}"`. -/
def httpExnStr (status : Nat) (detail : String) : String :=
  toString status ++ ": " ++ detail

/-- `GET /user/u` — `get_user` (src/app/api/V1/endpoints/user.py, lines
20-47), the handler body (its `get_current_user` token dependency is
resolved upstream and modelled separately).  The `try` constructs the
repository and calls `user_instance.get(uuid=user_uuid)` — keyword `uuid`
against `User.get`'s parameter `user_uuid` — and any exception becomes a
500; a `None` result becomes 404 "User not found"; a found document is
returned through `response_model=UserIn` with the `password` field
excluded. -/
def get_user (env : Env) (st : MongoState) (user_uuid : Int) :
    HttpResponse × MongoState :=
  match mkRepository env with
  | .error e =>
      (.httpError 500 ("Failed to retrieve user data: " ++ e.toMessage), st)
  | .ok _ =>
    match bindKwarg "User.get" "user_uuid" "uuid" (.int user_uuid) with
    | .error e =>
        (.httpError 500 ("Failed to retrieve user data: " ++ e.toMessage), st)
    | .ok v =>
      match User.get env st v with
      | (.error e, st', _) =>
          (.httpError 500 ("Failed to retrieve user data: " ++ e.toMessage),
           st')
      | (.ok (.single Option.none), st', _) =>
          (.httpError 404 "User not found", st')
      | (.ok (.single (some d)), st', _) =>
          (.ok (.dict (d.filter (fun kv => kv.1 != "password"))), st')
      | (.ok (.cursor _), st', _) => (.ok (.list []), st')

/-- The `try: ... hash_password ... save ...` block and the acknowledgement
envelope of `register_user` (src/app/api/V1/endpoints/user.py, lines
141-159).  The password is hashed and written back into the dict, then
`user_instance.save(data=user_dict)` runs; any exception in that block
becomes a 500 "Failed to register user".  On an acknowledged write the
success envelope reads `user_dict["user_uuid"]`, `"full_name"` and
`"phone_no"` from the (mutated) dict — outside any `try`, so a missing key
escapes uncaught. -/
def registerSave (env : Env) (st : MongoState) (user_dict : Doc) (salt : Nat) :
    HttpResponse × MongoState :=
  match lookupDoc "password" user_dict with
  | some (.str pw) =>
    let user_dict1 := setDoc "password"
        (.str (hash_password salt pw).render) user_dict
    match bindKwarg "User.save" "data" "data" (.dict user_dict1) with
    | .error e =>
        (.httpError 500 ("Failed to register user: " ++ e.toMessage), st)
    | .ok dv =>
      match User.save env st dv with
      | (.error e, st1, _) =>
          (.httpError 500 ("Failed to register user: " ++ e.toMessage), st1)
      | (.ok (finalDict, ack), st1, _) =>
        if ack.acknowledged then
          match lookupDoc "user_uuid" finalDict,
              lookupDoc "full_name" finalDict,
              lookupDoc "phone_no" finalDict with
          | some uid, some fn, some ph =>
              (.ok (.dict
                [("status", .str "success"),
                 ("message", .str "User registration successful"),
                 ("data", .dict
                   [("id", uid), ("full_name", fn), ("phone_no", ph)])]), st1)
          | Option.none, _, _ => (.uncaught (.keyError "user_uuid"), st1)
          | _, Option.none, _ => (.uncaught (.keyError "full_name"), st1)
          | _, _, Option.none => (.uncaught (.keyError "phone_no"), st1)
        else
          (.ok (.dict
            [("status", .str "failure"),
             ("message", .str "User registration failed")]), st1)
  | some _ =>
      (.httpError 500
        "Failed to register user: hash_password expects a string", st)
  | Option.none =>
      (.httpError 500 "Failed to register user: 'password'", st)

/-- `POST /user/register/` — `register_user` (src/app/api/V1/endpoints/
user.py, lines 106-159).  Constructs the repository (outside any `try`),
dumps the validated body, and when the email value is truthy pre-checks
uniqueness via `user_instance.filter(filter={"email": user_data.email})`
(also outside any `try`); a non-empty result is a 400
"User with this email already exists".  Otherwise control reaches the
hash-and-save block (`registerSave`).  `salt` is the bcrypt salt the
hashing library draws. -/
def register_user (env : Env) (st : MongoState) (user_data : UserIn)
    (salt : Nat) : HttpResponse × MongoState :=
  match mkRepository env with
  | .error e => (.uncaught e, st)
  | .ok _ =>
    let user_dict := user_data.dump
    let emailVal := (lookupDoc "email" user_dict).getD PyVal.none
    if emailVal.truthy then
      match bindKwarg "User.filter" "filter" "filter"
          (.dict [("email", pyOptStr user_data.email)]) with
      | .error e => (.uncaught e, st)
      | .ok fv =>
        match User.filter env st fv with
        | (.error e, st1, _) => (.uncaught e, st1)
        | (.ok exist_users_list, st1, _) =>
          if exist_users_list.length > 0 then
            (.httpError 400 "User with this email already exists", st1)
          else
            registerSave env st1 user_dict salt
    else
      registerSave env st user_dict salt

/-- `POST /user/subscription/` — `create_user_subscriptions`
(src/app/api/V1/endpoints/subscription.py, lines 74-135), the handler body
(token dependency resolved upstream).  After dumping the body, the first
`try` constructs the `User` repository and calls
`user_instance.get(uuid=sub_dict["user_uuid"])` — keyword `uuid` against
`User.get`'s parameter `user_uuid` — turning any exception into a 500
"Failed to retrieve user data"; a missing user is a 404; an existing
subscription (pre-checked by `subscription_instance.filter`, outside any
`try`) is a 400; otherwise the dump is saved and the envelope reads
`sub_dict["subscription"][0]["amount"]` outside any `try`. -/
def create_user_subscriptions (env : Env) (st : MongoState)
    (subscription : SubscriptionIn) : HttpResponse × MongoState :=
  match mkRepository env with
  | .error e => (.uncaught e, st)
  | .ok _ =>
    let sub_dict := subscription.dump
    let uuidVal := (lookupDoc "user_uuid" sub_dict).getD PyVal.none
    match bindKwarg "User.get" "user_uuid" "uuid" uuidVal with
    | .error e =>
        (.httpError 500 ("Failed to retrieve user data: " ++ e.toMessage), st)
    | .ok v =>
      match User.get env st v with
      | (.error e, st1, _) =>
          (.httpError 500 ("Failed to retrieve user data: " ++ e.toMessage),
           st1)
      | (.ok (.cursor _), st1, _) => (.httpError 404 "User not found", st1)
      | (.ok (.single Option.none), st1, _) =>
          (.httpError 404 "User not found", st1)
      | (.ok (.single (some _)), st1, _) =>
        match bindKwarg "Base.filter" "filter" "filter"
            (.dict [("user_uuid", uuidVal)]) with
        | .error e => (.uncaught e, st1)
        | .ok fv =>
          match Base.filter env.subTable env st1 fv with
          | (.error e, st2, _) => (.uncaught e, st2)
          | (.ok user_subscription, st2, _) =>
            if user_subscription.length > 0 then
              (.httpError 400
                "User with this user_uuid already has a subscription", st2)
            else
              match bindKwarg "Base.save" "data" "data" (.dict sub_dict) with
              | .error e =>
                  (.httpError 500
                    ("Failed to register user subscription: " ++ e.toMessage),
                   st2)
              | .ok dv =>
                match Base.save env.subTable env st2 dv with
                | (.error e, st3, _) =>
                    (.httpError 500
                      ("Failed to register user subscription: " ++
                        e.toMessage), st3)
                | (.ok (_, ack), st3, _) =>
                  if ack.acknowledged then
                    match lookupDoc "subscription" sub_dict with
                    | some (.list (p0 :: _)) =>
                      match p0 with
                      | .dict pd =>
                        match lookupDoc "amount" pd with
                        | some amt =>
                            (.ok (.dict
                              [("status", .str "success"),
                               ("message", .str
                                 "Subscription added successfully"),
                               ("data", .dict
                                 [("user_uuid", uuidVal),
                                  ("amount", amt)])]), st3)
                        | Option.none => (.uncaught (.keyError "amount"), st3)
                      | _ => (.uncaught (.typeError
                          "subscription entries must be dicts"), st3)
                    | some (.list []) =>
                        (.uncaught (.indexError "list index out of range"), st3)
                    | _ => (.uncaught (.keyError "subscription"), st3)
                  else
                    (.ok (.dict
                      [("status", .str "failure"),
                       ("message", .str
                         "Failed to create the subscription")]), st3)

/-- A dumped period dict re-validated through `BaseSubscription(**d)` (the
`SubscriptionIn(**data)` coercion on the no-existing-subscription path of
the patch endpoint): supplied fields are kept when well-typed, unset
fields take the class defaults. -/
def normalizePeriod (cls : SchemaDefaults) (d : Doc) : Doc :=
  mkPeriod cls
    (match lookupDoc "start_date" d with
     | some (.str s) => some s
     | _ => Option.none)
    (match lookupDoc "end_date" d with
     | some (.str s) => some s
     | _ => Option.none)
    (match lookupDoc "amount" d with
     | some (.int n) => some n
     | _ => Option.none)

/-- `PATCH /user/subscription/` — `update_user_subscriptions`
(src/app/api/V1/endpoints/subscription.py, lines 138-197), the handler
body.  Everything after the dump sits inside one outer
`try/except Exception` whose handler is a 500 "Failed to retrieve user
data".  With an existing (truthy) subscription document, the inner `try`
appends `sub_dict["user_data"]` to its `"subscription"` list and calls
`subscription_instance.update(data={"user_uuid": ..., "user_data":
{"subscription": ...}})`; an exception there raises a 500 "Failed to
update subscription" — which the OUTER handler catches and re-wraps.  With
no existing document, the handler delegates to
`create_user_subscriptions` — whose `HTTPException`s are likewise caught
by the outer handler and re-wrapped as 500s. -/
def update_user_subscriptions (env : Env) (cls : SchemaDefaults)
    (st : MongoState) (subscription : SubscriptionUpdate) (now : String) :
    HttpResponse × MongoState :=
  match mkRepository env with
  | .error e => (.uncaught e, st)
  | .ok _ =>
    let sub_dict := subscription.dump
    let uuidVal := (lookupDoc "user_uuid" sub_dict).getD PyVal.none
    match bindKwarg "Base.get" "uuid" "uuid" uuidVal with
    | .error e =>
        (.httpError 500 ("Failed to retrieve user data: " ++ e.toMessage), st)
    | .ok v =>
      match Base.get env.subTable env st v with
      | (.error e, st1, _) =>
          (.httpError 500 ("Failed to retrieve user data: " ++ e.toMessage),
           st1)
      | (.ok qr, st1, _) =>
        match qr with
        | .single (some existing_sub_data) =>
          if (PyVal.dict existing_sub_data).truthy then
            match lookupDoc "subscription" existing_sub_data with
            | some (.list periods) =>
                let appended := periods ++ [.dict subscription.user_data]
                let data : PyVal := .dict
                  [("user_uuid", uuidVal),
                   ("user_data", .dict [("subscription", .list appended)])]
                match bindKwarg "Base.update" "data" "data" data with
                | .error e =>
                    (.httpError 500
                      ("Failed to retrieve user data: " ++
                        httpExnStr 500
                          ("Failed to update subscription: " ++ e.toMessage)),
                     st1)
                | .ok dv =>
                  match Base.update env.subTable env st1 dv now with
                  | (.error e, st2, _) =>
                      (.httpError 500
                        ("Failed to retrieve user data: " ++
                          httpExnStr 500
                            ("Failed to update subscription: " ++
                              e.toMessage)), st2)
                  | (.ok ack, st2, _) =>
                    if ack.acknowledged then
                      (.ok (.dict
                        [("status", .str "success"),
                         ("message", .str "Subscription updated successfully"),
                         ("data", .dict [("user_uuid", uuidVal)])]), st2)
                    else
                      (.ok (.dict
                        [("status", .str "failure"),
                         ("message", .str "Subscription update failed")]), st2)
            | some _ =>
                (.httpError 500
                  ("Failed to retrieve user data: " ++
                    httpExnStr 500
                      ("Failed to update subscription: " ++
                        "'object has no attribute append'")), st1)
            | Option.none =>
                (.httpError 500
                  ("Failed to retrieve user data: " ++
                    httpExnStr 500
                      ("Failed to update subscription: 'subscription'")), st1)
          else
            match create_user_subscriptions env st1
                (SubscriptionIn.make cls subscription.user_uuid
                  [normalizePeriod cls subscription.user_data]) with
            | (.ok body, st2) => (.ok body, st2)
            | (.httpError s d, st2) =>
                (.httpError 500
                  ("Failed to retrieve user data: " ++ httpExnStr s d), st2)
            | (.uncaught e, st2) =>
                (.httpError 500
                  ("Failed to retrieve user data: " ++ e.toMessage), st2)
        | .single Option.none =>
            match create_user_subscriptions env st1
                (SubscriptionIn.make cls subscription.user_uuid
                  [normalizePeriod cls subscription.user_data]) with
            | (.ok body, st2) => (.ok body, st2)
            | (.httpError s d, st2) =>
                (.httpError 500
                  ("Failed to retrieve user data: " ++ httpExnStr s d), st2)
            | (.uncaught e, st2) =>
                (.httpError 500
                  ("Failed to retrieve user data: " ++ e.toMessage), st2)
        | .cursor _ =>
            (.httpError 500 "Failed to retrieve user data: unexpected cursor",
             st1)

/-- A concrete, fully configured deployment environment used by the
concrete evaluations below. -/
def envFx : Env :=
  ⟨"mongodb://localhost:27017", "core", "users", "subs", "s1", "s2"⟩

/-- A Mongo instance with no documents. -/
def stEmpty : MongoState := ⟨[], 0⟩

/-- The schema class attributes of a process whose modules were imported
with entropy counter 0 at a fixed import time. -/
def clsFx : SchemaDefaults :=
  (importSchemaModules ⟨0⟩ "2023-10-01 || 00:00:00:000000").1

/-- A valid registration body: name "A", fresh email, phone "1", explicit
password "pw". -/
def userInFx : UserIn :=
  UserIn.make clsFx (some "A") (some "a@x.com") (some "1") Option.none
    Option.none (some "pw") Option.none Option.none Option.none Option.none

/-- The first stored subscription period of the concrete scenario. -/
def p0Fx : Doc :=
  [("start_date", .str "2023-01-01"), ("end_date", .str "2023-02-01"),
   ("amount", .int 10)]

/-- The new period supplied by the concrete patch request. -/
def p1Fx : Doc :=
  [("start_date", .str "2023-02-01"), ("end_date", .str "2023-03-01"),
   ("amount", .int 20)]

/-- A create-subscription body for user 1 with a single period. -/
def subInFx : SubscriptionIn := SubscriptionIn.make clsFx 1 [p0Fx]

/-- A Mongo instance holding user 1 (and no subscriptions). -/
def stUser1 : MongoState :=
  ⟨[(("core", "users"), [[("user_uuid", .int 1), ("email", .str "a@x.com")]])],
   5⟩

/-- A stored subscription document for user 1 with a one-element period
sequence. -/
def subDocFx : Doc :=
  [("user_uuid", .int 1), ("subscription", .list [.dict p0Fx]),
   ("created_at", .str "T0")]

/-- A Mongo instance holding that subscription document. -/
def stSub1 : MongoState := ⟨[(("core", "subs"), [subDocFx])], 5⟩

/-- A patch body adding the new period for user 1. -/
def updFx : SubscriptionUpdate := ⟨1, p1Fx⟩

set_option maxRecDepth 100000 in
/-- C8 counterexample: the claim's second half fails on bcrypt's 72-byte
truncation.  The two passwords below are distinct 73-character strings
differing only in their last byte, so they share their first 72 bytes and
the hash of one verifies against the other. -/
theorem verify_password_truncation_counterexample :
    String.mk (List.replicate 72 'a' ++ ['b']) ≠
      String.mk (List.replicate 72 'a' ++ ['c']) ∧
    verify_password (String.mk (List.replicate 72 'a' ++ ['b']))
      (hash_password 0 (String.mk (List.replicate 72 'a' ++ ['c']))) = true := by
  constructor
  · decide
  · rfl

/-- C8 (amended): `verify_password(p, hash_password(p))` is true for every
password, and `verify_password(p1, hash_password(p2))` is false whenever
the first 72 UTF-8 bytes of `p1` and `p2` differ (bcrypt only consumes the
first 72 bytes, so passwords agreeing there are not distinguished). -/
theorem password_hash_roundtrip_amended :
    (∀ (salt : Nat) (p : String),
      verify_password p (hash_password salt p) = true) ∧
    (∀ (salt : Nat) (p1 p2 : String),
      bcryptTruncate p1 ≠ bcryptTruncate p2 →
      verify_password p1 (hash_password salt p2) = false) := by
  constructor
  · intro salt p
    simp [verify_password, hash_password]
  · intro salt p1 p2 h
    simpa [verify_password, hash_password] using h

/-- C8 witness: the round trip holds for `"secret"`, and the two
distinguishable short passwords `"pw1"` and `"pw2"` do not cross-verify. -/
theorem password_hash_roundtrip_amended_witness :
    verify_password "secret" (hash_password 3 "secret") = true ∧
    verify_password "pw1" (hash_password 3 "pw2") = false := by
  refine ⟨password_hash_roundtrip_amended.1 3 "secret",
    password_hash_roundtrip_amended.2 3 "pw1" "pw2" ?_⟩
  decide

/-- C9: `create_access_token(u)` produces exactly the payload
`{exp, sub}` with `sub = str(u)` and `exp` 30 minutes after issuance,
signed HS256 under the access secret; `create_refresh_token(u)` likewise
with `exp` 7 days after issuance under the refresh secret; before expiry
the access token decodes under the access secret back to that payload; and
when the two configured secrets differ, the access token does not decode
under the refresh secret. -/
theorem token_construction_and_decode (env : Env) (now nowLater u : Int)
    (hfresh : nowLater ≤ now + 30 * 60)
    (hkeys : env.jwtSecretKey ≠ env.jwtRefreshSecretKey) :
    create_access_token env now (.int u) Option.none =
      .ok (.signed "HS256"
        [("exp", .int (now + 30 * 60)), ("sub", .str (toString u))]
        env.jwtSecretKey) ∧
    create_refresh_token env now (.int u) Option.none =
      .ok (.signed "HS256"
        [("exp", .int (now + 60 * 24 * 7 * 60)), ("sub", .str (toString u))]
        env.jwtRefreshSecretKey) ∧
    joseDecode
      (.signed "HS256"
        [("exp", .int (now + 30 * 60)), ("sub", .str (toString u))]
        env.jwtSecretKey)
      env.jwtSecretKey ["HS256"] nowLater =
      .ok [("exp", .int (now + 30 * 60)), ("sub", .str (toString u))] ∧
    joseDecode
      (.signed "HS256"
        [("exp", .int (now + 30 * 60)), ("sub", .str (toString u))]
        env.jwtSecretKey)
      env.jwtRefreshSecretKey ["HS256"] nowLater = .error .jwtError := by
  refine ⟨rfl, rfl, ?_, ?_⟩
  · simp [joseDecode, lookupDoc, pyStr]
    omega
  · simp [joseDecode, lookupDoc, pyStr, hkeys]

/-- C9 witness: a concrete configuration with distinct secrets, issuance
at epoch 0, decoding at epoch 100. -/
theorem token_construction_and_decode_witness :
    create_access_token
        ⟨"mongodb://db", "core", "users", "subs", "s1", "s2"⟩ 0 (.int 7)
        Option.none =
      .ok (.signed "HS256" [("exp", .int 1800), ("sub", .str "7")] "s1") ∧
    joseDecode (.signed "HS256" [("exp", .int 1800), ("sub", .str "7")] "s1")
        "s2" ["HS256"] 100 = .error .jwtError := by
  have h := token_construction_and_decode
    ⟨"mongodb://db", "core", "users", "subs", "s1", "s2"⟩ 0 100 7
    (by norm_num) (by decide)
  exact ⟨h.1, h.2.2.2⟩

/-- C10: the `UserIn.password` default is `generate_password()` evaluated
once, when the schema module is imported; any two `UserIn` values built in
the same process without an explicit password therefore carry the
identical generated string — the single token drawn from the entropy
source at import — rather than a fresh password each. -/
theorem userin_password_default_shared (r : Rng) (importTime : String)
    (fn1 em1 ph1 : Option String) (ad1 ur1 : Option Int)
    (ia1 is1 iad1 isu1 : Option Bool)
    (fn2 em2 ph2 : Option String) (ad2 ur2 : Option Int)
    (ia2 is2 iad2 isu2 : Option Bool) :
    (UserIn.make (importSchemaModules r importTime).1 fn1 em1 ph1 ad1 ur1
        Option.none ia1 is1 iad1 isu1).password =
      (UserIn.make (importSchemaModules r importTime).1 fn2 em2 ph2 ad2 ur2
        Option.none ia2 is2 iad2 isu2).password ∧
    (UserIn.make (importSchemaModules r importTime).1 fn1 em1 ph1 ad1 ur1
        Option.none ia1 is1 iad1 isu1).password =
      (generate_password r).1 := by
  constructor <;> rfl

/-- A successful `TokenPayload(**payload)` means the payload carried an
integer `exp` claim equal to the parsed expiry. -/
theorem tokenPayload_parse_exp {claims : Doc} {td : TokenPayload}
    (hp : TokenPayload.parse claims = .ok td) :
    lookupDoc "exp" claims = some (.int td.exp) := by
  unfold TokenPayload.parse at hp
  rcases he : lookupDoc "exp" claims with _ | v <;> rw [he] at hp
  · simp at hp
  · rcases hs : lookupDoc "sub" claims with _ | w <;> rw [hs] at hp
    · simp at hp
    · rcases v with n | s | b | _ | xs | kvs <;>
        rcases w with n' | s' | b' | _ | xs' | kvs' <;> simp at hp
      rw [← hp]

/-- A successful `jwt.decode` means the token's integer `exp` claim (when
present) had not passed at decode time: python-jose already enforced
expiry. -/
theorem joseDecode_ok_not_expired {tok : Token} {key : String}
    {algs : List String} {now : Int} {claims : Doc}
    (hdec : joseDecode tok key algs now = .ok claims) :
    ∀ e : Int, lookupDoc "exp" claims = some (.int e) → ¬ e < now := by
  intro e he hlt
  cases tok with
  | malformed raw => simp [joseDecode] at hdec
  | signed alg cl k =>
    simp only [joseDecode] at hdec
    split at hdec
    · exact absurd hdec (by simp)
    · split at hdec
      · exact absurd hdec (by simp)
      · split at hdec
        · next e' hexp =>
          split at hdec
          · exact absurd hdec (by simp)
          · next hge =>
            injection hdec with hc
            subst hc
            rw [hexp] at he
            simp only [Option.some.injEq, PyVal.int.injEq] at he
            omega
        · next hnot =>
          injection hdec with hc
          subst hc
          exact hnot e he

/-- C2: a syntactically well-formed token, signed under the configured
access secret, whose expiry has elapsed is rejected by `get_current_user`
with 403 "Could not validate credentials", because `jwt.decode` raises
`ExpiredSignatureError` (a subclass of `JWTError`) which the handler's
`except (jwt.JWTError, ValidationError)` maps to 403; and (second
conjunct) no input whatsoever can produce the 401 "Token expired" outcome
the claim describes — that branch is dead code. -/
theorem get_current_user_expired_token_403 :
    get_current_user envFx stEmpty
      (.signed "HS256" [("exp", .int 5), ("sub", .str "1")] "s1") 10 =
      .failure 403 "Could not validate credentials" ∧
    ∀ (env : Env) (st : MongoState) (tok : Token) (now : Int),
      get_current_user env st tok now ≠ .failure 401 "Token expired" := by
  constructor
  · rfl
  · intro env st tok now
    unfold get_current_user
    rcases hdec : joseDecode tok env.jwtSecretKey ["HS256"] now with e | payload
    · simp
    · rcases hp : TokenPayload.parse payload with e | td
      · simp [hp]
      · simp only [hp]
        rw [if_neg (joseDecode_ok_not_expired hdec td.exp
          (tokenPayload_parse_exp hp))]
        repeat' split <;> try simp

/-- C3: requesting a user by a `user_uuid` that does not exist.  The data
layer does return an absent result for a missing record (second conjunct:
`find_one` yields `None` without an error), but the endpoint never sees
it: `get_user` calls `user_instance.get(uuid=...)` while `User.get`'s
parameter is named `user_uuid`, so the call raises `TypeError`, which the
endpoint's broad `except` converts to a 500 that leaks the exception text —
not the 404 "User not found" the claim describes. -/
theorem get_user_missing_user_500_not_404 :
    get_user envFx stEmpty 999 =
      (.httpError 500
        "Failed to retrieve user data: User.get() got an unexpected keyword argument 'uuid'",
       stEmpty) ∧
    DataBase.query stEmpty (.str "core") (.str "users")
        (.dict [("user_uuid", .int 999)]) (.bool false) =
      (.ok (.single Option.none), stEmpty,
       [.findOne "core" "users" (some [("user_uuid", .int 999)])]) := by
  constructor <;> rfl

/-- C1: a valid registration body with a previously unused email.  The
dumped `UserIn` has no `user_uuid` key at all (the schema declares none),
so `DataBase.upload`'s `data["user_uuid"]` raises `KeyError('user_uuid')`
before any insert; the endpoint's `except` turns it into a 500
"Failed to register user: 'user_uuid'".  No record is written (the
returned state is the unchanged input state) and no success envelope with
a fresh identifier is ever produced. -/
theorem register_user_keyerror_user_uuid :
    register_user envFx stEmpty userInFx 0 =
      (.httpError 500 "Failed to register user: 'user_uuid'", stEmpty) := by
  rfl

/-- C5: creating a subscription never stores a record — even with the
referenced user present, `create_user_subscriptions` calls
`user_instance.get(uuid=...)` against `User.get`'s parameter `user_uuid`,
so the existence pre-check raises `TypeError` and the endpoint answers 500
with the state unchanged (first conjunct).  The patch path on an existing
record does behave as described: the stored period sequence gains a second
element, the first element unchanged, and `updated_at` is stamped (second
conjunct). -/
theorem subscription_create_500_patch_appends :
    create_user_subscriptions envFx stUser1 subInFx =
      (.httpError 500
        "Failed to retrieve user data: User.get() got an unexpected keyword argument 'uuid'",
       stUser1) ∧
    update_user_subscriptions envFx clsFx stSub1 updFx "NOW" =
      (.ok (.dict
        [("status", .str "success"),
         ("message", .str "Subscription updated successfully"),
         ("data", .dict [("user_uuid", .int 1)])]),
       ⟨[(("core", "subs"),
          [[("user_uuid", .int 1),
            ("subscription", .list [.dict p0Fx, .dict p1Fx]),
            ("created_at", .str "T0"),
            ("updated_at", .str "NOW")]])], 5⟩) := by
  constructor <;> rfl

/-- C4: registering with an email that already belongs to a stored user.
In any configured deployment (non-empty connection URL, database and
collection names), when the request's email is a non-empty string and some
document of the user collection matches the filter `{"email": e}`, the
endpoint answers 400 "User with this email already exists" and the store
is returned unchanged — the 400 is raised before `save` is ever reached,
so no record is written. -/
theorem register_user_duplicate_email_conflict (env : Env) (st : MongoState)
    (u : UserIn) (e : String) (salt : Nat)
    (hurl : env.dbUrl ≠ "") (hdbn : env.dbName ≠ "")
    (htbl : env.userTable ≠ "")
    (hemail : u.email = some e) (he : e ≠ "")
    (hexists : ∃ d ∈ st.getColl env.dbName env.userTable,
      docMatches [("email", .str e)] d = true) :
    register_user env st u salt =
      (.httpError 400 "User with this email already exists", st) := by
  obtain ⟨d, hd, hmatch⟩ := hexists
  have hurl' : env.dbUrl.isEmpty = false := by
    rw [Bool.eq_false_iff]
    intro h
    exact hurl ((String.isEmpty_iff _).mp h)
  have hdbn' : env.dbName.isEmpty = false := by
    rw [Bool.eq_false_iff]
    intro h
    exact hdbn ((String.isEmpty_iff _).mp h)
  have htbl' : env.userTable.isEmpty = false := by
    rw [Bool.eq_false_iff]
    intro h
    exact htbl ((String.isEmpty_iff _).mp h)
  have he' : e.isEmpty = false := by
    rw [Bool.eq_false_iff]
    intro h
    exact he ((String.isEmpty_iff _).mp h)
  have hdump : lookupDoc "email" u.dump = pyOptStr u.email := rfl
  have hfilter : User.filter env st (.dict [("email", PyVal.str e)]) =
      (.ok ((st.getColl env.dbName env.userTable).filter
          (docMatches [("email", PyVal.str e)])), st,
       [.find env.dbName env.userTable (some [("email", PyVal.str e)])]) := by
    unfold User.filter DataBase.query
    have hval : DataBase.validate (.str env.dbName) (.str env.userTable)
        false PyVal.none (PyVal.dict [("email", PyVal.str e)]).truthy
        (.dict [("email", PyVal.str e)]) (.bool true) = .ok () := by
      simp [DataBase.validate, PyVal.truthy, PyVal.isStr, PyVal.isDict,
        hdbn', htbl']
    rw [hval]
    simp [PyVal.truthy, PyVal.asStr]
  have hlen : 0 < ((st.getColl env.dbName env.userTable).filter
      (docMatches [("email", PyVal.str e)])).length :=
    List.length_pos.mpr
      (List.ne_nil_of_mem (List.mem_filter.mpr ⟨hd, hmatch⟩))
  unfold register_user
  rw [show mkRepository env = .ok () from by simp [mkRepository, hurl']]
  simp only [hdump, hemail, pyOptStr, Option.getD_some]
  rw [show (PyVal.str e).truthy = true from by simp [PyVal.truthy, he']]
  simp only [if_true, bindKwarg, beq_self_eq_true, if_pos]
  rw [hfilter]
  simp only [if_pos hlen]

/-- C4 witness: concrete duplicate registration against a store already
holding a user with email "a@x.com". -/
theorem register_user_duplicate_email_conflict_witness :
    register_user envFx
      ⟨[(("core", "users"),
         [[("email", .str "a@x.com"), ("user_uuid", .int 1)]])], 3⟩
      userInFx 0 =
      (.httpError 400 "User with this email already exists",
       ⟨[(("core", "users"),
          [[("email", .str "a@x.com"), ("user_uuid", .int 1)]])], 3⟩) := by
  refine register_user_duplicate_email_conflict envFx _ userInFx "a@x.com" 0
    (by decide) (by decide) (by decide) rfl (by decide)
    ⟨[("email", .str "a@x.com"), ("user_uuid", .int 1)], ?_, ?_⟩
  · simp [MongoState.getColl, envFx]
  · rfl

/-- Setting one key leaves the lookup of every other key unchanged. -/
theorem lookupDoc_setDoc_ne {k k' : String} (v : PyVal) (d : Doc)
    (h : k ≠ k') : lookupDoc k (setDoc k' v d) = lookupDoc k d := by
  have hbk : (k' == k) = false := beq_eq_false_iff_ne.mpr (Ne.symm h)
  induction d with
  | nil => simp [setDoc, lookupDoc, hbk]
  | cons kv tl ih =>
    obtain ⟨k2, v2⟩ := kv
    by_cases h2 : (k2 == k') = true
    · have hk2 : k2 = k' := by simpa using h2
      subst hk2
      simp [setDoc, lookupDoc, hbk]
    · simp only [setDoc, h2, if_false, Bool.false_eq_true]
      by_cases h3 : (k2 == k) = true
      · simp [lookupDoc, h3]
      · simp [lookupDoc, h3, ih]

/-- The keys present after a `setDoc` are the set key and the original
keys. -/
theorem mem_docKeys_setDoc {k k' : String} {v : PyVal} {d : Doc}
    (h : k ∈ docKeys (setDoc k' v d)) : k = k' ∨ k ∈ docKeys d := by
  induction d with
  | nil =>
    simp [setDoc, docKeys] at h
    exact Or.inl h
  | cons kv tl ih =>
    obtain ⟨k2, v2⟩ := kv
    by_cases h2 : (k2 == k') = true
    · have hk2 : k2 = k' := by simpa using h2
      subst hk2
      simp [setDoc, docKeys] at h ⊢
      tauto
    · simp only [setDoc, h2, if_false, Bool.false_eq_true, docKeys,
        List.map_cons, List.mem_cons] at h ⊢
      rcases h with h | h
      · tauto
      · rcases ih h with h' | h' <;> tauto

/-- A `$set` leaves the lookup of every key outside the set document
unchanged. -/
theorem lookupDoc_applySet_frame {k : String} (s : Doc) :
    ∀ d : Doc, k ∉ docKeys s → lookupDoc k (applySet s d) = lookupDoc k d := by
  induction s with
  | nil =>
    intro d _
    rfl
  | cons kv tl ih =>
    intro d h
    obtain ⟨k1, v1⟩ := kv
    have h1 : k ≠ k1 := by
      intro hk
      exact h (by simp [docKeys, hk])
    have h2 : k ∉ docKeys tl := by
      intro hm
      exact h (by simp [docKeys]; exact Or.inr (by simpa [docKeys] using hm))
    have hstep : applySet ((k1, v1) :: tl) d = applySet tl (setDoc k1 v1 d) :=
      rfl
    rw [hstep, ih (setDoc k1 v1 d) h2, lookupDoc_setDoc_ne v1 d h1]

/-- `update_one` relates the new and old collection pointwise: each
document is either untouched or the transform of its old value. -/
theorem forall₂_updateFirst {R : Doc → Doc → Prop} (p : Doc → Bool)
    (f : Doc → Doc) (hf : ∀ d, R (f d) d) (hr : ∀ d, R d d) :
    ∀ l : List Doc, List.Forall₂ R (updateFirst p f l) l := by
  intro l
  induction l with
  | nil => exact List.Forall₂.nil
  | cons d tl ih =>
    by_cases hp : p d = true
    · simp only [updateFirst, hp, if_true]
      exact List.Forall₂.cons (hf d)
        (List.forall₂_same.mpr (fun x _ => hr x))
    · simp only [updateFirst, hp, if_false, Bool.false_eq_true]
      exact List.Forall₂.cons (hr d) ih

/-- `update_many` relates the new and old collection pointwise in the same
way. -/
theorem forall₂_mapUpdate {R : Doc → Doc → Prop} (p : Doc → Bool)
    (f : Doc → Doc) (hf : ∀ d, R (f d) d) (hr : ∀ d, R d d) :
    ∀ l : List Doc,
      List.Forall₂ R (l.map fun d => if p d then f d else d) l := by
  intro l
  induction l with
  | nil => exact List.Forall₂.nil
  | cons d tl ih =>
    rw [List.map_cons]
    by_cases hp : p d = true
    · rw [if_pos hp]
      exact List.Forall₂.cons (hf d) ih
    · rw [if_neg hp]
      exact List.Forall₂.cons (hr d) ih

/-- Reading a collection right after replacing it yields the replacement. -/
theorem find?_map_replace (key : String × String) (docs : List Doc) :
    ∀ l : List ((String × String) × List Doc),
      l.any (fun c => c.1 == key) = true →
      ((((l.map (fun c => if c.1 == key then (c.1, docs) else c)).find?
          (fun c => c.1 == key)).map (fun c => c.2)).getD []) = docs := by
  intro l hex
  induction l with
  | nil => simp at hex
  | cons c tl ih =>
    by_cases hc : (c.1 == key) = true
    · have hceq : c.1 = key := by simpa using hc
      simp [List.map_cons, List.find?, hceq]
    · have hcne : ¬ c.1 = key := by simpa using hc
      have hcf : (c.1 == key) = false := by simpa using hc
      have hex' : tl.any (fun c => c.1 == key) = true := by
        simpa [List.any_cons, hcf] using hex
      simp only [List.map_cons, List.find?, hcf, Bool.false_eq_true,
        if_false]
      exact ih hex'

/-- Reading a freshly appended collection yields its contents. -/
theorem find?_append_new (key : String × String) (docs : List Doc) :
    ∀ l : List ((String × String) × List Doc),
      l.any (fun c => c.1 == key) = false →
      ((((l ++ [(key, docs)]).find? (fun c => c.1 == key)).map
          (fun c => c.2)).getD []) = docs := by
  intro l hex
  induction l with
  | nil => simp [List.find?]
  | cons c tl ih =>
    rw [List.any_cons, Bool.or_eq_false_iff] at hex
    rw [List.cons_append]
    simp only [List.find?, hex.1]
    exact ih hex.2

/-- `getColl` after `setColl` on the same collection returns the new
contents. -/
theorem getColl_setColl (st : MongoState) (db tbl : String)
    (docs : List Doc) : (st.setColl db tbl docs).getColl db tbl = docs := by
  unfold MongoState.setColl MongoState.getColl
  by_cases hex : st.colls.any (fun c => c.1 == (db, tbl)) = true
  · simp only [hex, if_true]
    exact find?_map_replace (db, tbl) docs st.colls hex
  · rw [Bool.not_eq_true] at hex
    simp only [hex, Bool.false_eq_true, if_false]
    exact find?_append_new (db, tbl) docs st.colls hex

/-- C6: `$set` frame property of `DataBase.update`.  For any update call
whose payload carries a `user_data` sub-document and a `user_uuid` (the
shape every caller produces), the call acknowledges, and the new contents
of the collection relate pointwise to the old: for every key other than
`updated_at` and the keys listed in the sub-document, every document's
value at that key is unchanged — in particular unmatched documents are
untouched entirely, and matched documents change only at the listed keys
plus the freshly stamped `updated_at`. -/
theorem database_update_set_frame (st : MongoState) (db tbl : String)
    (fields ud : Doc) (uv : PyVal) (b : Bool) (now : String)
    (hdb : db ≠ "") (htbl : tbl ≠ "")
    (hud : lookupDoc "user_data" fields = some (.dict ud))
    (huuid : lookupDoc "user_uuid" fields = some uv) :
    (DataBase.update st (.str db) (.str tbl) (.dict fields) (.bool b)
        now).1 = .ok ⟨true⟩ ∧
    List.Forall₂
      (fun d' d => ∀ k : String, k ≠ "updated_at" → k ∉ docKeys ud →
        lookupDoc k d' = lookupDoc k d)
      (((DataBase.update st (.str db) (.str tbl) (.dict fields) (.bool b)
          now).2.1).getColl db tbl)
      (st.getColl db tbl) := by
  have hdb' : db.isEmpty = false := by
    rw [Bool.eq_false_iff]
    intro h
    exact hdb ((String.isEmpty_iff _).mp h)
  have htbl' : tbl.isEmpty = false := by
    rw [Bool.eq_false_iff]
    intro h
    exact htbl ((String.isEmpty_iff _).mp h)
  have hne : fields.isEmpty = false := by
    cases fields with
    | nil => simp [lookupDoc] at hud
    | cons kv tl => rfl
  have hval : DataBase.validate (.str db) (.str tbl) true (.dict fields)
      false PyVal.none (.bool b) = .ok () := by
    simp [DataBase.validate, PyVal.truthy, PyVal.isStr, PyVal.isDict,
      hdb', htbl', hne]
  have hframe : ∀ d : Doc, ∀ k : String, k ≠ "updated_at" → k ∉ docKeys ud →
      lookupDoc k (applySet (setDoc "updated_at" (.str now) ud) d) =
        lookupDoc k d := by
    intro d k hk1 hk2
    apply lookupDoc_applySet_frame
    intro hmem
    rcases mem_docKeys_setDoc hmem with h | h
    · exact hk1 h
    · exact hk2 h
  cases b with
  | true =>
    have hres : DataBase.update st (.str db) (.str tbl) (.dict fields)
        (.bool true) now =
        (.ok ⟨true⟩,
         st.setColl db tbl ((st.getColl db tbl).map
           (fun d => if docMatches [("user_uuid", uv)] d then
             applySet (setDoc "updated_at" (.str now) ud) d else d)),
         [.updateMany db tbl [("user_uuid", uv)]
           (setDoc "updated_at" (.str now) ud)]) := by
      unfold DataBase.update
      rw [hval]
      simp [hud, huuid, PyVal.truthy, PyVal.asStr]
    rw [hres]
    refine ⟨rfl, ?_⟩
    rw [getColl_setColl]
    exact forall₂_mapUpdate _ _ hframe (fun d k _ _ => rfl) _
  | false =>
    have hres : DataBase.update st (.str db) (.str tbl) (.dict fields)
        (.bool false) now =
        (.ok ⟨true⟩,
         st.setColl db tbl (updateFirst (docMatches [("user_uuid", uv)])
           (applySet (setDoc "updated_at" (.str now) ud))
           (st.getColl db tbl)),
         [.updateOne db tbl [("user_uuid", uv)]
           (setDoc "updated_at" (.str now) ud)]) := by
      unfold DataBase.update
      rw [hval]
      simp [hud, huuid, PyVal.truthy, PyVal.asStr]
    rw [hres]
    refine ⟨rfl, ?_⟩
    rw [getColl_setColl]
    exact forall₂_updateFirst _ _ hframe (fun d k _ _ => rfl) _

/-- C6 witness: renaming only `full_name` of user 1 leaves the other keys
of the matched record — and all keys of the unmatched record — unchanged. -/
theorem database_update_set_frame_witness :
    (DataBase.update
        ⟨[(("core", "users"),
           [[("user_uuid", .int 1), ("email", .str "a@x.com"),
             ("full_name", .str "A")],
            [("user_uuid", .int 2), ("email", .str "b@x.com")]])], 9⟩
        (.str "core") (.str "users")
        (.dict [("user_uuid", .int 1),
                ("user_data", .dict [("full_name", .str "B")])])
        (.bool false) "T1").1 = .ok ⟨true⟩ ∧
    List.Forall₂
      (fun d' d => ∀ k : String, k ≠ "updated_at" →
        k ∉ docKeys [("full_name", PyVal.str "B")] →
        lookupDoc k d' = lookupDoc k d)
      (((DataBase.update
          ⟨[(("core", "users"),
             [[("user_uuid", .int 1), ("email", .str "a@x.com"),
               ("full_name", .str "A")],
              [("user_uuid", .int 2), ("email", .str "b@x.com")]])], 9⟩
          (.str "core") (.str "users")
          (.dict [("user_uuid", .int 1),
                  ("user_data", .dict [("full_name", .str "B")])])
          (.bool false) "T1").2.1).getColl "core" "users")
      ((⟨[(("core", "users"),
           [[("user_uuid", .int 1), ("email", .str "a@x.com"),
             ("full_name", .str "A")],
            [("user_uuid", .int 2), ("email", .str "b@x.com")]])], 9⟩ :
          MongoState).getColl "core" "users") := by
  exact database_update_set_frame _ "core" "users" _
    [("full_name", PyVal.str "B")] (.int 1) false "T1"
    (by decide) (by decide) rfl rfl

/-- C7 counterexample: `db_name` passed as the integer `0` is present and
of the wrong type, yet the call raises `MissingAttributeError` — not
`TypeError` — because `validate` tests truthiness (`if not db_name`)
before it tests the type, and `0` is falsy. -/
theorem delete_intzero_dbname_missing_counterexample :
    DataBase.delete stEmpty (.int 0) (.str "t") (.dict [("a", .int 1)]) =
      (.error (.missingAttribute "db_name is required"), stEmpty, []) := by
  rfl

/-- C7 (amended): the four data-access operations fail fast through
`validate` before any database call (empty call log, state unchanged):
an absent-or-falsy required argument raises `MissingAttributeError`, and a
present, truthy argument of the wrong type raises `TypeError`.  (The
amendment: falsy wrong-typed values such as `0` are reported as missing
rather than mistyped.)  The first eight conjuncts characterise `validate`
for `db_name`, `table_name`, `data` and `filter`; the last four state that
each operation propagates any `validate` failure with no driver call
issued and the store untouched. -/
theorem validate_fail_fast_amended :
    (∀ db tbl dopt data fopt flt blk, db.truthy = false →
      DataBase.validate db tbl dopt data fopt flt blk =
        .error (.missingAttribute "db_name is required")) ∧
    (∀ db tbl dopt data fopt flt blk,
      db.truthy = true → db.isStr = false →
      DataBase.validate db tbl dopt data fopt flt blk =
        .error (.typeError ("Expected a str for 'db_name' but received a " ++
          db.typeName ++ "."))) ∧
    (∀ db tbl dopt data fopt flt blk,
      db.truthy = true → db.isStr = true → tbl.truthy = false →
      DataBase.validate db tbl dopt data fopt flt blk =
        .error (.missingAttribute "table_name is required")) ∧
    (∀ db tbl dopt data fopt flt blk,
      db.truthy = true → db.isStr = true →
      tbl.truthy = true → tbl.isStr = false →
      DataBase.validate db tbl dopt data fopt flt blk =
        .error (.typeError ("Expected a str for 'table_name' but received a " ++
          tbl.typeName ++ "."))) ∧
    (∀ db tbl data fopt flt blk,
      db.truthy = true → db.isStr = true →
      tbl.truthy = true → tbl.isStr = true → data.truthy = false →
      DataBase.validate db tbl true data fopt flt blk =
        .error (.missingAttribute "data is required")) ∧
    (∀ db tbl data fopt flt blk,
      db.truthy = true → db.isStr = true →
      tbl.truthy = true → tbl.isStr = true →
      data.truthy = true → data.isDict = false → data.isList = false →
      DataBase.validate db tbl true data fopt flt blk =
        .error (.typeError ("Expected a dict/list for 'data' but received a " ++
          data.typeName ++ "."))) ∧
    (∀ db tbl flt blk,
      db.truthy = true → db.isStr = true →
      tbl.truthy = true → tbl.isStr = true → flt.truthy = false →
      DataBase.validate db tbl false PyVal.none true flt blk =
        .error (.missingAttribute "filter is required")) ∧
    (∀ db tbl flt blk,
      db.truthy = true → db.isStr = true →
      tbl.truthy = true → tbl.isStr = true →
      flt.truthy = true → flt.isDict = false →
      DataBase.validate db tbl false PyVal.none true flt blk =
        .error (.typeError ("Expected a dict for 'filter' but received a " ++
          flt.typeName ++ "."))) ∧
    (∀ st db tbl data e,
      DataBase.validate db tbl true data false PyVal.none (.bool false) =
        .error e →
      DataBase.upload st db tbl data = (.error e, st, [])) ∧
    (∀ st db tbl flt blk e,
      DataBase.validate db tbl false PyVal.none flt.truthy flt blk =
        .error e →
      DataBase.query st db tbl flt blk = (.error e, st, [])) ∧
    (∀ st db tbl data blk now e,
      DataBase.validate db tbl true data false PyVal.none blk = .error e →
      DataBase.update st db tbl data blk now = (.error e, st, [])) ∧
    (∀ st db tbl flt e,
      DataBase.validate db tbl false PyVal.none true flt (.bool false) =
        .error e →
      DataBase.delete st db tbl flt = (.error e, st, [])) := by
  refine ⟨?_, ?_, ?_, ?_, ?_, ?_, ?_, ?_, ?_, ?_, ?_, ?_⟩
  · intro db tbl dopt data fopt flt blk h1
    simp [DataBase.validate, h1]
  · intro db tbl dopt data fopt flt blk h1 h2
    simp [DataBase.validate, h1, h2]
  · intro db tbl dopt data fopt flt blk h1 h2 h3
    simp [DataBase.validate, h1, h2, h3]
  · intro db tbl dopt data fopt flt blk h1 h2 h3 h4
    simp [DataBase.validate, h1, h2, h3, h4]
  · intro db tbl data fopt flt blk h1 h2 h3 h4 h5
    simp [DataBase.validate, h1, h2, h3, h4, h5]
  · intro db tbl data fopt flt blk h1 h2 h3 h4 h5 h6 h7
    simp [DataBase.validate, h1, h2, h3, h4, h5, h6, h7]
  · intro db tbl flt blk h1 h2 h3 h4 h5
    simp [DataBase.validate, h1, h2, h3, h4, h5]
  · intro db tbl flt blk h1 h2 h3 h4 h5 h6
    simp [DataBase.validate, h1, h2, h3, h4, h5, h6]
  · intro st db tbl data e h
    unfold DataBase.upload
    rw [h]
  · intro st db tbl flt blk e h
    unfold DataBase.query
    rw [h]
  · intro st db tbl data blk now e h
    unfold DataBase.update
    rw [h]
  · intro st db tbl flt e h
    unfold DataBase.delete
    rw [h]

/-- C7 witness: a missing `db_name` on `upload` and a mistyped (truthy,
non-dict) `filter` on `delete`, both failing fast with no driver call and
the store unchanged. -/
theorem validate_fail_fast_amended_witness :
    DataBase.upload stEmpty PyVal.none (.str "t") (.dict [("a", .int 1)]) =
      (.error (.missingAttribute "db_name is required"), stEmpty, []) ∧
    DataBase.delete stEmpty (.str "core") (.str "t") (.int 5) =
      (.error (.typeError "Expected a dict for 'filter' but received a int."),
       stEmpty, []) := by
  constructor
  · exact validate_fail_fast_amended.2.2.2.2.2.2.2.2.1 stEmpty PyVal.none
      (.str "t") (.dict [("a", .int 1)])
      (.missingAttribute "db_name is required")
      (validate_fail_fast_amended.1 PyVal.none (.str "t") true
        (.dict [("a", .int 1)]) false PyVal.none (.bool false) rfl)
  · exact validate_fail_fast_amended.2.2.2.2.2.2.2.2.2.2.2 stEmpty
      (.str "core") (.str "t") (.int 5)
      (.typeError "Expected a dict for 'filter' but received a int.")
      (validate_fail_fast_amended.2.2.2.2.2.2.2.1 (.str "core") (.str "t")
        (.int 5) (.bool false) rfl rfl rfl rfl rfl rfl)
